import Mathlib

/-!
Shallow embedding of the Cursive runtime core (`src/views/classic.rs`):
the root composition (`Cursive`), its screen/menubar/theme state, the
global-hotkey table, the asynchronous callback queue, and the event loop
(`step` / `run`).  Collaborator types that live outside the given sources
(`StackView`, the widgets, the backend implementations, theme parsing) are
kept abstract as type parameters bundled in an `Env`, or modelled from the
spec where it is the only description available.  Backend side effects
(clear/draw/refresh) and callback invocations are recorded in an explicit
trace of `Effect`s so that ordering and multiplicity claims can be stated.
-/

/-- 2D size/position value: a pair of non-negative integer components. -/
structure Vec2 where
  x : Nat
  y : Nat
deriving DecidableEq, Repr

/-- Component-wise saturating subtraction (`Nat` subtraction saturates at zero),
used when reserving the menu-bar row. -/
def Vec2.saturatingSub (v w : Vec2) : Vec2 :=
  ⟨v.x - w.x, v.y - w.y⟩

/-- Input events.  Modelled from the spec: the event module is not under the
given sources.  A closed tagged union: character input, named key (coded),
mouse event (the kind is represented by its grabs-focus flag, plus a
position), window-resize notice, the idle/refresh marker, and an exit
request.  Equality is structural. -/
inductive Event where
  | CharKey (c : Char)
  | NamedKey (code : Nat)
  | Mouse (grabs : Bool) (position : Vec2)
  | WindowResize
  | Refresh
  | Exit
deriving DecidableEq, Repr

/-- Modelled from the spec: relativizing an event by an offset shifts a mouse
position by subtracting the offset (saturating); every other variant passes
through unchanged. -/
def Event.relativized (e : Event) (offset : Vec2) : Event :=
  match e with
  | .Mouse g p => .Mouse g (p.saturatingSub offset)
  | e => e

/-- Result of dispatching an event to a view: either ignored, or consumed
with an optional deferred root-level callback. -/
inductive EventResult (C : Type) where
  | Ignored
  | Consumed (cb : Option C)
deriving DecidableEq, Repr

/-- Modelled from the spec: `views::Menubar` is not under the given sources.
Only the surface the loop consumes is kept: the autohide flag, whether the
menubar currently captures input (`focused`), and whether a submenu is open. -/
structure Menubar where
  autohide : Bool
  focused : Bool
  hasSubmenu : Bool
deriving DecidableEq, Repr

/-- Fresh menubar: autohide enabled by default, not focused, no open submenu. -/
def Menubar.new : Menubar :=
  ⟨true, false, false⟩

/-- Whether the menubar currently captures input. -/
def Menubar.receiveEvents (m : Menubar) : Bool :=
  m.focused

/-- Modelled from the spec: the menubar is visible when autohide is disabled
or when it is selected. -/
def Menubar.visible (m : Menubar) : Bool :=
  !m.autohide || m.focused

/-- `take_focus`: the menubar becomes the input recipient. -/
def Menubar.takeFocus (m : Menubar) : Menubar :=
  { m with focused := true }

/-- Typed theme-loading error (the spec's "theme parse failure" kind). -/
structure ThemeError where
  msg : String
deriving DecidableEq, Repr

/-- Observable side effects of one pass of the loop, in emission order:
asynchronous-queue callback invocations, the size offered to the active
screen's layout, full-canvas backend clears, the draw sub-passes, the
backend flush, events routed to the menubar or the active screen, global
hotkey callback invocations and deferred view callbacks. -/
inductive Effect (C : Type) where
  | asyncCall (c : C)
  | layoutScreen (size : Vec2)
  | clearScreen
  | drawBg
  | drawMenubar
  | drawFg
  | refresh
  | menubarEvent (e : Event)
  | screenEvent (e : Event)
  | globalCall (c : C)
  | deferredCall (c : C)
deriving DecidableEq, Repr

/-- The root composition state (`struct Cursive` of `views/classic.rs`).
`T` is the opaque theme value, `S` the screen (`StackView`) state, `C` the
callback payload.  The backend is represented by its observable inputs: the
pending event stream, the reported screen size and the configured refresh
rate; its output side is the effect trace. -/
structure Cursive (T S C : Type) where
  theme : T
  screens : List S
  globalCallbacks : List (Event × List C)
  menubar : Menubar
  lastSizes : List Vec2
  activeScreen : Nat
  running : Bool
  backendInputs : List Event
  backendSize : Vec2
  backendRate : Nat
  cbQueue : List C
deriving DecidableEq

/-- The abstract collaborators: how a callback payload acts on the root
(`runC`), the screen operations the root forwards to (`StackView` is not
under the given sources), the menubar's own event handler, and the fallible
theme parsers. -/
structure Env (T S C : Type) where
  themeDefault : T
  newScreen : S
  screenLayout : S → Vec2 → S
  layerSizes : S → List Vec2
  screenOnEvent : S → Event → S × EventResult C
  menubarOnEvent : Menubar → Event → Menubar × EventResult C
  loadThemeFile : String → Except ThemeError T
  loadTheme : String → Except ThemeError T
  runC : C → Cursive T S C → Cursive T S C

/-- Replace the element at index `i` (no-op when out of range), mirroring an
in-place mutation of `self.screens[i]`. -/
def listModify {α : Type} (l : List α) (i : Nat) (f : α → α) : List α :=
  match l, i with
  | [], _ => []
  | a :: rest, 0 => f a :: rest
  | a :: rest, Nat.succ n => a :: listModify rest n f

/-- Lookup in the global-hotkey table (`HashMap::get` on an association list). -/
def lookupCbs {C : Type} (m : List (Event × List C)) (e : Event) : Option (List C) :=
  match m with
  | [] => none
  | (k, v) :: rest => if k = e then some v else lookupCbs rest e

/-- `entry(event).or_insert_with(Vec::new).push(cb)`: append the callback to
the event's list, creating the entry if absent. -/
def insertCb {C : Type} (m : List (Event × List C)) (e : Event) (c : C) :
    List (Event × List C) :=
  match m with
  | [] => [(e, [c])]
  | (k, v) :: rest =>
    if k = e then (k, v ++ [c]) :: rest else (k, v) :: insertCb rest e c

/-- `HashMap::remove`: drop the entry for the event. -/
def removeCbs {C : Type} (m : List (Event × List C)) (e : Event) :
    List (Event × List C) :=
  m.filter (fun kv => kv.1 != e)

variable {T S C : Type}

/-- `Cursive::with_backend`: default theme, a single fresh screen, empty
callback table, fresh menubar, screen 0 active, running, empty queue.  The
backend's pending inputs and reported size parametrize the model. -/
def Cursive.with_backend (env : Env T S C) (inputs : List Event) (size : Vec2) :
    Cursive T S C :=
  { theme := env.themeDefault
    screens := [env.newScreen]
    globalCallbacks := []
    menubar := Menubar.new
    lastSizes := []
    activeScreen := 0
    running := true
    backendInputs := inputs
    backendSize := size
    backendRate := 0
    cbQueue := [] }

/-- `Cursive::screen`: the currently active screen.  Rust indexes the vector
(an out-of-range active id would be a panic); under the root invariant the
index is always valid, so the default is never reached. -/
def Cursive.screen (env : Env T S C) (s : Cursive T S C) : S :=
  s.screens.getD s.activeScreen env.newScreen

/-- An in-place mutation of the active screen through `screen_mut()`; this is
the common shape of `add_layer`, `add_fullscreen_layer`, `pop_layer` and
`reposition_layer`, which all forward a `StackView` operation. -/
def Cursive.screen_mut_apply (s : Cursive T S C) (f : S → S) : Cursive T S C :=
  { s with screens := listModify s.screens s.activeScreen f }

/-- `Cursive::add_screen`: push a fresh screen, return the previous count as
its id. -/
def Cursive.add_screen (env : Env T S C) (s : Cursive T S C) :
    Cursive T S C × Nat :=
  ({ s with screens := s.screens ++ [env.newScreen] }, s.screens.length)

/-- `Cursive::set_screen`: fatal (modelled as `none`) when the id is not a
valid index, otherwise set the active screen id. -/
def Cursive.set_screen (s : Cursive T S C) (screen_id : Nat) :
    Option (Cursive T S C) :=
  if screen_id ≥ s.screens.length then none
  else some { s with activeScreen := screen_id }

/-- `Cursive::add_active_screen`: add a screen and activate it. -/
def Cursive.add_active_screen (env : Env T S C) (s : Cursive T S C) :
    Option (Cursive T S C × Nat) :=
  let A := s.add_screen env
  (A.1.set_screen A.2).map (fun s2 => (s2, A.2))

/-- `Cursive::add_global_callback`: register a callback under an event, kept
in insertion order per key. -/
def Cursive.add_global_callback (s : Cursive T S C) (e : Event) (c : C) :
    Cursive T S C :=
  { s with globalCallbacks := insertCb s.globalCallbacks e c }

/-- `Cursive::clear_global_callbacks`: remove every callback tied to the event. -/
def Cursive.clear_global_callbacks (s : Cursive T S C) (e : Event) :
    Cursive T S C :=
  { s with globalCallbacks := removeCbs s.globalCallbacks e }

/-- `Cursive::select_menubar`: move focus to the menubar. -/
def Cursive.select_menubar (s : Cursive T S C) : Cursive T S C :=
  { s with menubar := s.menubar.takeFocus }

/-- `Cursive::set_autohide_menu`. -/
def Cursive.set_autohide_menu (s : Cursive T S C) (b : Bool) : Cursive T S C :=
  { s with menubar := { s.menubar with autohide := b } }

/-- `Cursive::set_theme`: install the theme and clear the screen. -/
def Cursive.set_theme (s : Cursive T S C) (t : T) :
    Cursive T S C × List (Effect C) :=
  ({ s with theme := t }, [Effect.clearScreen])

/-- `Cursive::load_theme_file`: on parse failure return the typed error with
the state untouched; on success install the theme (which clears the screen). -/
def Cursive.load_theme_file (env : Env T S C) (s : Cursive T S C)
    (filename : String) :
    Cursive T S C × List (Effect C) × Except ThemeError Unit :=
  match env.loadThemeFile filename with
  | .error e => (s, [], .error e)
  | .ok t =>
    let R := s.set_theme t
    (R.1, R.2, .ok ())

/-- `Cursive::load_theme`: same contract for in-memory content. -/
def Cursive.load_theme (env : Env T S C) (s : Cursive T S C) (content : String) :
    Cursive T S C × List (Effect C) × Except ThemeError Unit :=
  match env.loadTheme content with
  | .error e => (s, [], .error e)
  | .ok t =>
    let R := s.set_theme t
    (R.1, R.2, .ok ())

/-- Modelled from the spec: the concrete backend implementations are not
under the given sources (only the `Backend` trait declaration is).  The spec
requires `set_refresh_rate` to accept 0 to 1000 inclusive and treats any
other value as a fatal configuration error. -/
def setRefreshRate (fps : Nat) : Option Nat :=
  if fps ≤ 1000 then some fps else none

/-- `Cursive::set_fps`: forwards the rate to the backend contract. -/
def Cursive.set_fps (s : Cursive T S C) (fps : Nat) : Option (Cursive T S C) :=
  (setRefreshRate fps).map (fun r => { s with backendRate := r })

/-- Modelled from the spec: a refresh rate of 0 disables the periodic idle
wake entirely; any nonzero rate enables it. -/
def idleWakeEnabled (rate : Nat) : Bool :=
  rate != 0

/-- `Cursive::quit`: clear the running flag, nothing else. -/
def Cursive.quit (s : Cursive T S C) : Cursive T S C :=
  { s with running := false }

/-- `Cursive::is_running`. -/
def Cursive.is_running (s : Cursive T S C) : Bool :=
  s.running

/-- Run a snapshot of the asynchronous callback queue, front first, each
callback getting exclusive access to the root (`while let Ok(cb) =
self.cb_source.try_recv() { cb.call_box(self) }`; `try_recv` on an empty
channel ends the drain immediately). -/
def drainQueue (env : Env T S C) : List C → Cursive T S C →
    Cursive T S C × List (Effect C)
  | [], s => (s, [])
  | c :: rest, s =>
    let R := drainQueue env rest (env.runC c s)
    (R.1, Effect.asyncCall c :: R.2)

/-- Run a cloned list of global callbacks in order, each with exclusive
access to the root. -/
def runCbs (env : Env T S C) : List C → Cursive T S C →
    Cursive T S C × List (Effect C)
  | [], s => (s, [])
  | c :: rest, s =>
    let R := runCbs env rest (env.runC c s)
    (R.1, Effect.globalCall c :: R.2)

/-- `Cursive::on_event` (private): run every global callback registered
under the event, in registration order; nothing when none are registered.
The Rust code clones the list before iterating, so the snapshot semantics
is exact. -/
def Cursive.on_event (env : Env T S C) (s : Cursive T S C) (e : Event) :
    Cursive T S C × List (Effect C) :=
  match lookupCbs s.globalCallbacks e with
  | none => (s, [])
  | some cb_list => runCbs env cb_list s

/-- `Cursive::layout`: read the backend size, reserve one row for the
menubar unless it autohides (saturating), and lay out the active screen
with the remaining size. -/
def Cursive.layout (env : Env T S C) (s : Cursive T S C) :
    Cursive T S C × List (Effect C) :=
  let offset : Nat := if s.menubar.autohide then 0 else 1
  let size := s.backendSize.saturatingSub ⟨0, offset⟩
  (s.screen_mut_apply (fun scr => env.screenLayout scr size),
   [Effect.layoutScreen size])

/-- `Cursive::draw`: clear the full canvas exactly when the active screen's
layer-size signature differs from the cached one (updating the cache), then
draw the screen background, the menubar when visible, and the foreground. -/
def Cursive.draw (env : Env T S C) (s : Cursive T S C) :
    Cursive T S C × List (Effect C) :=
  let sizes := env.layerSizes (s.screen env)
  let P : Cursive T S C × List (Effect C) :=
    if s.lastSizes ≠ sizes then ({ s with lastSizes := sizes }, [Effect.clearScreen])
    else (s, [])
  (P.1, P.2 ++ [Effect.drawBg]
    ++ (if P.1.menubar.visible then [Effect.drawMenubar] else [])
    ++ [Effect.drawFg])

/-- `backend.poll_event()`: pop the next pending event; an exhausted stream
stands for the idle/refresh marker a nonzero refresh rate would produce. -/
def Cursive.pollEvent (s : Cursive T S C) : Event × Cursive T S C :=
  (s.backendInputs.headD Event.Refresh,
   { s with backendInputs := s.backendInputs.tail })

/-- Pre-dispatch handling in `step`: an exit event clears the running flag,
a window resize forces a backend clear, and a focus-grabbing mouse press on
row 0 while the menubar is non-autohidden with no open submenu selects the
menubar. -/
def Cursive.preProcess (s : Cursive T S C) (e : Event) :
    Cursive T S C × List (Effect C) :=
  let s1 := if e = Event.Exit then s.quit else s
  let tr : List (Effect C) :=
    if e = Event.WindowResize then [Effect.clearScreen] else []
  let s2 :=
    match e with
    | Event.Mouse grabs position =>
      if grabs && !s1.menubar.autohide && !s1.menubar.hasSubmenu
          && (position.y == 0)
      then s1.select_menubar else s1
    | _ => s1
  (s2, tr)

/-- Event dispatch in `step`: the menubar gets the event when it captures
input (its result is processed against the root, with no fallthrough);
otherwise the event, relativized by the menu-bar row offset, goes to the
active screen, and only an `Ignored` answer falls through to the global
hotkey table, keyed by the original non-relativized event. -/
def Cursive.dispatch (env : Env T S C) (s : Cursive T S C) (e : Event) :
    Cursive T S C × List (Effect C) :=
  if s.menubar.receiveEvents then
    let M := env.menubarOnEvent s.menubar e
    let s1 := { s with menubar := M.1 }
    match M.2 with
    | EventResult.Ignored => (s1, [Effect.menubarEvent e])
    | EventResult.Consumed none => (s1, [Effect.menubarEvent e])
    | EventResult.Consumed (some cb) =>
      (env.runC cb s1, [Effect.menubarEvent e, Effect.deferredCall cb])
  else
    let offset : Nat := if s.menubar.autohide then 0 else 1
    let er := e.relativized ⟨0, offset⟩
    let R := env.screenOnEvent (s.screen env) er
    let s1 := s.screen_mut_apply (fun _ => R.1)
    match R.2 with
    | EventResult.Ignored =>
      let G := s1.on_event env e
      (G.1, Effect.screenEvent er :: G.2)
    | EventResult.Consumed none => (s1, [Effect.screenEvent er])
    | EventResult.Consumed (some cb) =>
      (env.runC cb s1, [Effect.screenEvent er, Effect.deferredCall cb])

/-- The tick after the queue drain: layout, draw, flush, poll the backend,
pre-process, dispatch. -/
def Cursive.stepTail (env : Env T S C) (s : Cursive T S C) :
    Cursive T S C × List (Effect C) :=
  let L := s.layout env
  let D := L.1.draw env
  let P := D.1.pollEvent
  let Q := P.2.preProcess P.1
  let R := Q.1.dispatch env P.1
  (R.1, L.2 ++ D.2 ++ [Effect.refresh] ++ Q.2 ++ R.2)

/-- `Cursive::step`: one tick of the event loop — drain the asynchronous
callback queue to completion, then layout, draw, refresh, poll, pre-process
and dispatch. -/
def Cursive.step (env : Env T S C) (s : Cursive T S C) :
    Cursive T S C × List (Effect C) :=
  let A := drainQueue env s.cbQueue { s with cbQueue := [] }
  let B := A.1.stepTail env
  (B.1, A.2 ++ B.2)

/-- The `while self.running { self.step() }` loop, with explicit fuel (the
Rust loop is unbounded; once the running flag is cleared no further step
runs, so any sufficient fuel yields the same result). -/
def Cursive.runLoop (env : Env T S C) : Nat → Cursive T S C →
    Cursive T S C × List (Effect C)
  | 0, s => (s, [])
  | Nat.succ n, s =>
    if s.running then
      let A := s.step env
      let B := Cursive.runLoop env n A.1
      (B.1, A.2 ++ B.2)
    else (s, [])

/-- `Cursive::run`: set the running flag, then step until it is cleared. -/
def Cursive.run (env : Env T S C) (fuel : Nat) (s : Cursive T S C) :
    Cursive T S C × List (Effect C) :=
  Cursive.runLoop env fuel { s with running := true }

/-- Recognizes an asynchronous-queue callback invocation in a trace. -/
def isAsyncEffect : Effect C → Bool
  | .asyncCall _ => true
  | _ => false

/-- Recognizes a layout pass in a trace. -/
def isLayoutEffect : Effect C → Bool
  | .layoutScreen _ => true
  | _ => false

/-- Recognizes a full-canvas backend clear in a trace. -/
def isClearEffect : Effect C → Bool
  | .clearScreen => true
  | _ => false

/-- Recognizes the final draw sub-pass of a tick in a trace. -/
def isDrawFgEffect : Effect C → Bool
  | .drawFg => true
  | _ => false

/-- Recognizes any callback invocation (async, global or deferred). -/
def isCallEffect : Effect C → Bool
  | .asyncCall _ => true
  | .globalCall _ => true
  | .deferredCall _ => true
  | _ => false

/-- Extracts a global-hotkey callback invocation from a trace entry. -/
def effGlobal : Effect C → Option C
  | .globalCall c => some c
  | _ => none

/-- A trivial concrete environment (unit theme, unit screens, inert unit
callbacks) used to exercise the model on closed inputs. -/
def env0 : Env Unit Unit Unit :=
  { themeDefault := ()
    newScreen := ()
    screenLayout := fun _ _ => ()
    layerSizes := fun _ => []
    screenOnEvent := fun _ _ => ((), EventResult.Ignored)
    menubarOnEvent := fun m _ => (m, EventResult.Ignored)
    loadThemeFile := fun _ => Except.error ⟨"parse failure"⟩
    loadTheme := fun _ => Except.ok ()
    runC := fun _ s => s }

/-- Replacing an empty callback queue by the empty list is the identity. -/
theorem cbQueue_eta (s : Cursive T S C) (h : s.cbQueue = []) :
    { s with cbQueue := ([] : List C) } = s := by
  cases s
  simp_all

/-- Draining runs the queued callbacks front-first by folding `runC`, and
traces one `asyncCall` per queued callback, in order. -/
theorem drainQueue_spec (env : Env T S C) (q : List C) (s : Cursive T S C) :
    drainQueue env q s =
      (q.foldl (fun st c => env.runC c st) s, q.map Effect.asyncCall) := by
  induction q generalizing s with
  | nil => rfl
  | cons c rest ih => simp [drainQueue, ih]

/-- Global-callback execution folds `runC` over the registered list in
order, tracing one `globalCall` per callback. -/
theorem runCbs_spec (env : Env T S C) (cbs : List C) (s : Cursive T S C) :
    runCbs env cbs s =
      (cbs.foldl (fun st c => env.runC c st) s, cbs.map Effect.globalCall) := by
  induction cbs generalizing s with
  | nil => rfl
  | cons c rest ih => simp [runCbs, ih]

/-- The dispatch phase emits only routing and callback-invocation effects;
any predicate false on those counts zero occurrences. -/
theorem dispatch_countP (env : Env T S C) (s : Cursive T S C) (e : Event)
    (p : Effect C → Bool)
    (h1 : ∀ ev, p (Effect.menubarEvent ev) = false)
    (h2 : ∀ ev, p (Effect.screenEvent ev) = false)
    (h3 : ∀ c, p (Effect.globalCall c) = false)
    (h4 : ∀ c, p (Effect.deferredCall c) = false) :
    ((s.dispatch env e).2).countP p = 0 := by
  unfold Cursive.dispatch Cursive.on_event
  dsimp only
  repeat' split
  all_goals
    simp_all [runCbs_spec, List.countP_cons, List.countP_eq_zero, List.mem_map]

/-- No async-queue invocation is traced by dispatch. -/
theorem dispatch_async_count (env : Env T S C) (s : Cursive T S C) (e : Event) :
    ((s.dispatch env e).2).countP isAsyncEffect = 0 :=
  dispatch_countP env s e _ (fun _ => rfl) (fun _ => rfl) (fun _ => rfl)
    (fun _ => rfl)

/-- No layout pass is traced by dispatch. -/
theorem dispatch_layout_count (env : Env T S C) (s : Cursive T S C) (e : Event) :
    ((s.dispatch env e).2).countP isLayoutEffect = 0 :=
  dispatch_countP env s e _ (fun _ => rfl) (fun _ => rfl) (fun _ => rfl)
    (fun _ => rfl)

/-- No draw sub-pass is traced by dispatch. -/
theorem dispatch_drawFg_count (env : Env T S C) (s : Cursive T S C) (e : Event) :
    ((s.dispatch env e).2).countP isDrawFgEffect = 0 :=
  dispatch_countP env s e _ (fun _ => rfl) (fun _ => rfl) (fun _ => rfl)
    (fun _ => rfl)

/-- The layout phase traces exactly the one layout pass. -/
theorem layout_counts (env : Env T S C) (s : Cursive T S C) :
    ((s.layout env).2).countP isAsyncEffect = 0
    ∧ ((s.layout env).2).countP isLayoutEffect = 1
    ∧ ((s.layout env).2).countP isDrawFgEffect = 0 := by
  refine ⟨?_, ?_, ?_⟩ <;>
    simp [Cursive.layout, List.countP_cons, isAsyncEffect, isLayoutEffect,
      isDrawFgEffect]

/-- The draw phase traces no async invocation or layout, and exactly one
foreground draw. -/
theorem draw_counts (env : Env T S C) (s : Cursive T S C) :
    ((s.draw env).2).countP isAsyncEffect = 0
    ∧ ((s.draw env).2).countP isLayoutEffect = 0
    ∧ ((s.draw env).2).countP isDrawFgEffect = 1 := by
  refine ⟨?_, ?_, ?_⟩ <;>
  · unfold Cursive.draw
    dsimp only
    repeat' split
    all_goals
      simp [List.countP_append, List.countP_cons, isAsyncEffect,
        isLayoutEffect, isDrawFgEffect]

/-- The pre-dispatch phase traces at most a window-resize clear. -/
theorem preProcess_counts (s : Cursive T S C) (e : Event) :
    ((s.preProcess e).2).countP isAsyncEffect = 0
    ∧ ((s.preProcess e).2).countP isLayoutEffect = 0
    ∧ ((s.preProcess e).2).countP isDrawFgEffect = 0 := by
  refine ⟨?_, ?_, ?_⟩ <;>
  · unfold Cursive.preProcess
    dsimp only
    split
    all_goals
      simp [List.countP_cons, isAsyncEffect, isLayoutEffect, isDrawFgEffect]

/-- The post-drain part of a tick traces no async invocation, exactly one
layout pass and exactly one foreground draw. -/
theorem stepTail_counts (env : Env T S C) (s : Cursive T S C) :
    ((s.stepTail env).2).countP isAsyncEffect = 0
    ∧ ((s.stepTail env).2).countP isLayoutEffect = 1
    ∧ ((s.stepTail env).2).countP isDrawFgEffect = 1 := by
  unfold Cursive.stepTail
  dsimp only
  refine ⟨?_, ?_, ?_⟩ <;>
    rw [List.countP_append, List.countP_append, List.countP_append,
      List.countP_append]
  · rw [(layout_counts env _).1, (draw_counts env _).1, (preProcess_counts _ _).1,
      dispatch_async_count]
    simp [List.countP_cons, isAsyncEffect]
  · rw [(layout_counts env _).2.1, (draw_counts env _).2.1,
      (preProcess_counts _ _).2.1, dispatch_layout_count]
    simp [List.countP_cons, isLayoutEffect]
  · rw [(layout_counts env _).2.2, (draw_counts env _).2.2,
      (preProcess_counts _ _).2.2, dispatch_drawFg_count]
    simp [List.countP_cons, isDrawFgEffect]

/-- The state produced by the draw phase: only the layer-size cache can
change, and it changes exactly when the signature differs. -/
theorem draw_state (env : Env T S C) (s : Cursive T S C) :
    (s.draw env).1 =
      if s.lastSizes ≠ env.layerSizes (s.screen env)
      then { s with lastSizes := env.layerSizes (s.screen env) } else s := by
  unfold Cursive.draw
  dsimp only
  split <;> rfl

/-- The draw phase clears the canvas exactly when the signature differs. -/
theorem draw_clear_count (env : Env T S C) (s : Cursive T S C) :
    ((s.draw env).2).countP isClearEffect =
      if s.lastSizes ≠ env.layerSizes (s.screen env) then 1 else 0 := by
  unfold Cursive.draw
  dsimp only
  repeat' split
  all_goals simp_all [List.countP_append, List.countP_cons, isClearEffect]

/-- Each tick of the loop performs exactly one layout pass and exactly one
foreground draw. -/
theorem step_counts (env : Env T S C) (s : Cursive T S C) :
    ((s.step env).2).countP isLayoutEffect = 1
    ∧ ((s.step env).2).countP isDrawFgEffect = 1 := by
  unfold Cursive.step
  dsimp only
  rw [drainQueue_spec]
  dsimp only
  constructor
  · rw [List.countP_append, (stepTail_counts env _).2.1]
    simp [List.countP_eq_zero, List.mem_map, isLayoutEffect]
  · rw [List.countP_append, (stepTail_counts env _).2.2]
    simp [List.countP_eq_zero, List.mem_map, isDrawFgEffect]

/-- C3: for every backend-reported screen size (width, height), the per-tick
layout pass offers the active screen exactly (width, height - 1) when the
menu bar's autohide flag is disabled and exactly (width, height) when it is
enabled, the one-row subtraction saturating to zero when height is 0. -/
theorem C3_layout_offered_size (env : Env T S C) (s : Cursive T S C) :
    (s.menubar.autohide = false →
      (s.layout env).2
        = [Effect.layoutScreen ⟨s.backendSize.x, s.backendSize.y - 1⟩]
      ∧ (s.layout env).1.screens
        = listModify s.screens s.activeScreen
            (fun scr => env.screenLayout scr
              ⟨s.backendSize.x, s.backendSize.y - 1⟩))
    ∧ (s.menubar.autohide = true →
      (s.layout env).2 = [Effect.layoutScreen s.backendSize]
      ∧ (s.layout env).1.screens
        = listModify s.screens s.activeScreen
            (fun scr => env.screenLayout scr s.backendSize)) := by
  constructor <;> intro h <;>
    simp [Cursive.layout, Cursive.screen_mut_apply, Vec2.saturatingSub, h]

/-- Witness for C3 at a concrete 80x24 root, in both autohide modes. -/
theorem C3_layout_offered_size_witness :
    (((Cursive.with_backend env0 [] ⟨80, 24⟩).set_autohide_menu false).layout
        env0).2 = [Effect.layoutScreen ⟨80, 23⟩]
    ∧ ((Cursive.with_backend env0 [] ⟨80, 24⟩).layout env0).2
        = [Effect.layoutScreen ⟨80, 24⟩] :=
  ⟨((C3_layout_offered_size env0
      ((Cursive.with_backend env0 [] ⟨80, 24⟩).set_autohide_menu false)).1
      rfl).1,
   ((C3_layout_offered_size env0
      (Cursive.with_backend env0 [] ⟨80, 24⟩)).2 rfl).1⟩

/-- C4: the per-tick draw issues a full-canvas clear if and only if the
active screen's layer-size signature differs from the cached signature, in
that case clearing exactly once and updating the cache; with an unchanged
signature the draw pass issues no clear and leaves the state untouched, so
a second consecutive draw never clears. -/
theorem C4_draw_clear_iff_signature_changed (env : Env T S C)
    (s : Cursive T S C) :
    (s.lastSizes ≠ env.layerSizes (s.screen env) →
      ((s.draw env).2).countP isClearEffect = 1
      ∧ (s.draw env).1.lastSizes = env.layerSizes (s.screen env))
    ∧ (s.lastSizes = env.layerSizes (s.screen env) →
      ((s.draw env).2).countP isClearEffect = 0
      ∧ (s.draw env).1 = s)
    ∧ (((s.draw env).1.draw env).2).countP isClearEffect = 0 := by
  refine ⟨fun h => ⟨?_, ?_⟩, fun h => ⟨?_, ?_⟩, ?_⟩
  · rw [draw_clear_count, if_pos h]
  · rw [draw_state, if_pos h]
  · rw [draw_clear_count, if_neg (by simp [h])]
  · rw [draw_state, if_neg (by simp [h])]
  · rw [draw_state]
    by_cases h : s.lastSizes = env.layerSizes (s.screen env)
    · rw [if_neg (by simp [h]), draw_clear_count, if_neg (by simp [h])]
    · rw [if_pos h, draw_clear_count, if_neg ?_]
      simp [Cursive.screen]

/-- Witness for C4: a root whose cached signature differs (after adding a
sized layer signature) clears once; a fresh root with matching signature
does not clear. -/
theorem C4_draw_clear_iff_signature_changed_witness :
    ((({ Cursive.with_backend env0 [] ⟨80, 24⟩ with
          lastSizes := [⟨3, 3⟩] }).draw env0).2).countP isClearEffect = 1
    ∧ (((Cursive.with_backend env0 [] ⟨80, 24⟩).draw env0).2).countP
        isClearEffect = 0 :=
  ⟨((C4_draw_clear_iff_signature_changed env0
      { Cursive.with_backend env0 [] ⟨80, 24⟩ with
        lastSizes := [⟨3, 3⟩] }).1 (by decide)).1,
   ((C4_draw_clear_iff_signature_changed env0
      (Cursive.with_backend env0 [] ⟨80, 24⟩)).2.1 rfl).1⟩

/-- C6: `set_screen` with an id at or beyond the screen count fails fatally
(modelled as `none`) without touching the state, neither wrapping nor
clamping; with a valid id it sets exactly that id as the active screen and
changes nothing else. -/
theorem C6_set_screen_fatal_or_exact (s : Cursive T S C) (id : Nat) :
    (s.screens.length ≤ id → s.set_screen id = none)
    ∧ (id < s.screens.length →
      s.set_screen id = some { s with activeScreen := id }) := by
  constructor <;> intro h
  · simp [Cursive.set_screen, ge_iff_le, h]
  · simp [Cursive.set_screen, ge_iff_le, Nat.not_le.mpr h]

/-- Witness for C6 at a single-screen root: id 0 is valid, id 1 is fatal. -/
theorem C6_set_screen_fatal_or_exact_witness :
    (Cursive.with_backend env0 [] ⟨80, 24⟩).set_screen 1 = none
    ∧ (Cursive.with_backend env0 [] ⟨80, 24⟩).set_screen 0
      = some { Cursive.with_backend env0 [] ⟨80, 24⟩ with activeScreen := 0 } :=
  ⟨(C6_set_screen_fatal_or_exact (Cursive.with_backend env0 [] ⟨80, 24⟩) 1).1
      (by decide),
   (C6_set_screen_fatal_or_exact (Cursive.with_backend env0 [] ⟨80, 24⟩) 0).2
      (by decide)⟩

/-- C7: `load_theme_file` and `load_theme` return the typed theme error
exactly when the underlying parse fails, leaving the entire root state
(including the current theme) unchanged and issuing no clear; on success
they install the new theme and clear the screen. -/
theorem C7_theme_load_failure_keeps_state (env : Env T S C) (s : Cursive T S C)
    (filename content : String) :
    (∀ err, env.loadThemeFile filename = .error err →
      s.load_theme_file env filename = (s, [], .error err))
    ∧ (∀ t, env.loadThemeFile filename = .ok t →
      s.load_theme_file env filename
        = ({ s with theme := t }, [Effect.clearScreen], .ok ()))
    ∧ (∀ err, env.loadTheme content = .error err →
      s.load_theme env content = (s, [], .error err))
    ∧ (∀ t, env.loadTheme content = .ok t →
      s.load_theme env content
        = ({ s with theme := t }, [Effect.clearScreen], .ok ())) := by
  refine ⟨fun err h => ?_, fun t h => ?_, fun err h => ?_, fun t h => ?_⟩ <;>
    simp [Cursive.load_theme_file, Cursive.load_theme, Cursive.set_theme, h]

/-- Witness for C7: in the concrete environment the file parser fails and
leaves the root untouched, while the string parser succeeds and clears. -/
theorem C7_theme_load_failure_keeps_state_witness :
    (Cursive.with_backend env0 [] ⟨80, 24⟩).load_theme_file env0 "style.toml"
      = (Cursive.with_backend env0 [] ⟨80, 24⟩, [],
         .error ⟨"parse failure"⟩)
    ∧ (Cursive.with_backend env0 [] ⟨80, 24⟩).load_theme env0 "content"
      = ({ Cursive.with_backend env0 [] ⟨80, 24⟩ with theme := () },
         [Effect.clearScreen], .ok ()) :=
  ⟨(C7_theme_load_failure_keeps_state env0
      (Cursive.with_backend env0 [] ⟨80, 24⟩) "style.toml" "content").1
      ⟨"parse failure"⟩ rfl,
   (C7_theme_load_failure_keeps_state env0
      (Cursive.with_backend env0 [] ⟨80, 24⟩) "style.toml" "content").2.2.2
      () rfl⟩

/-- C9: `set_fps` accepts refresh rates between 0 and 1000 inclusive, with 0
disabling the periodic idle wake entirely, and any value above 1000 is a
fatal configuration error, rejected rather than forwarded. -/
theorem C9_set_fps_range (s : Cursive T S C) (fps : Nat) :
    (fps ≤ 1000 → s.set_fps fps = some { s with backendRate := fps })
    ∧ (1000 < fps → s.set_fps fps = none)
    ∧ idleWakeEnabled 0 = false
    ∧ (∀ r : Nat, r ≠ 0 → idleWakeEnabled r = true) := by
  refine ⟨fun h => ?_, fun h => ?_, rfl, fun r h => ?_⟩
  · simp [Cursive.set_fps, setRefreshRate, h]
  · simp [Cursive.set_fps, setRefreshRate, Nat.not_le.mpr h]
  · simp [idleWakeEnabled, h]

/-- Witness for C9 at rates 60 (accepted), 0 (accepted, wake disabled) and
1001 (rejected). -/
theorem C9_set_fps_range_witness :
    (Cursive.with_backend env0 [] ⟨80, 24⟩).set_fps 60
      = some { Cursive.with_backend env0 [] ⟨80, 24⟩ with backendRate := 60 }
    ∧ (Cursive.with_backend env0 [] ⟨80, 24⟩).set_fps 1001 = none
    ∧ idleWakeEnabled 0 = false
    ∧ idleWakeEnabled 60 = true :=
  ⟨(C9_set_fps_range (Cursive.with_backend env0 [] ⟨80, 24⟩) 60).1 (by decide),
   (C9_set_fps_range (Cursive.with_backend env0 [] ⟨80, 24⟩) 1001).2.1
      (by decide),
   (C9_set_fps_range (Cursive.with_backend env0 [] ⟨80, 24⟩) 60).2.2.1,
   (C9_set_fps_range (Cursive.with_backend env0 [] ⟨80, 24⟩) 60).2.2.2 60
      (by decide)⟩

/-- A step on an empty asynchronous queue is just the post-drain tick: the
drain ends immediately. -/
theorem step_empty_queue (env : Env T S C) (s : Cursive T S C)
    (hq : s.cbQueue = []) : s.step env = s.stepTail env := by
  unfold Cursive.step
  dsimp only
  rw [hq, cbQueue_eta s hq]
  simp [drainQueue]

/-- C2: every `step` first drains the asynchronous callback queue completely
and non-blockingly; callbacks A, B, C enqueued in that order all execute,
in order A then B then C, each with exclusive access to the root, before
the tick's single layout and draw; an empty queue ends the drain
immediately. -/
theorem C2_async_drained_in_order_before_layout (env : Env T S C) :
    (∀ (s : Cursive T S C) (a b c : C), s.cbQueue = [a, b, c] →
      s.step env =
        ((Cursive.stepTail env
            (env.runC c (env.runC b (env.runC a { s with cbQueue := [] })))).1,
         [Effect.asyncCall a, Effect.asyncCall b, Effect.asyncCall c]
           ++ (Cursive.stepTail env
              (env.runC c (env.runC b
                (env.runC a { s with cbQueue := [] })))).2)
      ∧ ((Cursive.stepTail env
            (env.runC c (env.runC b
              (env.runC a { s with cbQueue := [] })))).2).countP
          isAsyncEffect = 0
      ∧ ((Cursive.stepTail env
            (env.runC c (env.runC b
              (env.runC a { s with cbQueue := [] })))).2).countP
          isLayoutEffect = 1
      ∧ ((Cursive.stepTail env
            (env.runC c (env.runC b
              (env.runC a { s with cbQueue := [] })))).2).countP
          isDrawFgEffect = 1)
    ∧ (∀ s : Cursive T S C, s.cbQueue = [] → s.step env = s.stepTail env) := by
  refine ⟨fun s a b c h => ?_, step_empty_queue env⟩
  refine ⟨?_, (stepTail_counts env _).1, (stepTail_counts env _).2.1,
    (stepTail_counts env _).2.2⟩
  unfold Cursive.step
  dsimp only
  rw [h]
  simp [drainQueue]

/-- Witness for C2 at a concrete root with three queued unit callbacks and
one with an empty queue. -/
theorem C2_async_drained_in_order_before_layout_witness :
    (({ Cursive.with_backend env0 [] ⟨80, 24⟩ with
          cbQueue := [(), (), ()] }).step env0 =
      ((Cursive.stepTail env0
          (env0.runC () (env0.runC () (env0.runC ()
            { { Cursive.with_backend env0 [] ⟨80, 24⟩ with
                cbQueue := [(), (), ()] } with cbQueue := [] })))).1,
       [Effect.asyncCall (), Effect.asyncCall (), Effect.asyncCall ()]
         ++ (Cursive.stepTail env0
            (env0.runC () (env0.runC () (env0.runC ()
              { { Cursive.with_backend env0 [] ⟨80, 24⟩ with
                  cbQueue := [(), (), ()] } with cbQueue := [] })))).2))
    ∧ (Cursive.with_backend env0 [] ⟨80, 24⟩).step env0
      = (Cursive.with_backend env0 [] ⟨80, 24⟩).stepTail env0 :=
  ⟨(((C2_async_drained_in_order_before_layout env0).1
      { Cursive.with_backend env0 [] ⟨80, 24⟩ with cbQueue := [(), (), ()] }
      () () () rfl).1),
   ((C2_async_drained_in_order_before_layout env0).2
      (Cursive.with_backend env0 [] ⟨80, 24⟩) rfl)⟩

/-- The root composition invariant: at least one screen exists and the
active-screen identifier is a valid index into the screen list. -/
def RootInv (s : Cursive T S C) : Prop :=
  0 < s.screens.length ∧ s.activeScreen < s.screens.length

/-- `listModify` never changes the length. -/
theorem listModify_length {α : Type} (l : List α) (i : Nat) (f : α → α) :
    (listModify l i f).length = l.length := by
  induction l generalizing i with
  | nil => rfl
  | cons a rest ih => cases i <;> simp [listModify, ih]

/-- Mutating the active screen in place preserves the invariant. -/
theorem RootInv_screen_mut (s : Cursive T S C) (f : S → S) (h : RootInv s) :
    RootInv (s.screen_mut_apply f) := by
  unfold RootInv Cursive.screen_mut_apply at *
  simpa [listModify_length] using h

/-- Folding invariant-preserving callbacks preserves the invariant. -/
theorem RootInv_foldl_runC (env : Env T S C)
    (hrun : ∀ (c : C) (s : Cursive T S C), RootInv s → RootInv (env.runC c s))
    (q : List C) (s : Cursive T S C) (h : RootInv s) :
    RootInv (q.foldl (fun st c => env.runC c st) s) := by
  induction q generalizing s with
  | nil => exact h
  | cons c rest ih => exact ih _ (hrun c s h)

/-- Global-callback execution preserves the invariant. -/
theorem RootInv_on_event (env : Env T S C)
    (hrun : ∀ (c : C) (s : Cursive T S C), RootInv s → RootInv (env.runC c s))
    (s : Cursive T S C) (e : Event) (h : RootInv s) :
    RootInv (s.on_event env e).1 := by
  unfold Cursive.on_event
  split
  · exact h
  · rw [runCbs_spec]
    exact RootInv_foldl_runC env hrun _ _ h

/-- Dispatch preserves the invariant. -/
theorem RootInv_dispatch (env : Env T S C)
    (hrun : ∀ (c : C) (s : Cursive T S C), RootInv s → RootInv (env.runC c s))
    (s : Cursive T S C) (e : Event) (h : RootInv s) :
    RootInv (s.dispatch env e).1 := by
  unfold Cursive.dispatch
  dsimp only
  have hmb : ∀ m : Menubar, RootInv { s with menubar := m } := fun m => h
  repeat' split
  all_goals
    first
    | exact h
    | exact hrun _ _ h
    | exact hrun _ _ (hmb _)
    | exact hmb _
    | exact RootInv_on_event env hrun _ _ (RootInv_screen_mut s _ h)
    | exact RootInv_screen_mut s _ h
    | exact hrun _ _ (RootInv_screen_mut s _ h)

/-- The pre-dispatch phase preserves the invariant. -/
theorem RootInv_preProcess (s : Cursive T S C) (e : Event) (h : RootInv s) :
    RootInv (s.preProcess e).1 := by
  unfold Cursive.preProcess Cursive.quit Cursive.select_menubar
  dsimp only
  repeat' split
  all_goals exact h

/-- The post-drain tick preserves the invariant. -/
theorem RootInv_stepTail (env : Env T S C)
    (hrun : ∀ (c : C) (s : Cursive T S C), RootInv s → RootInv (env.runC c s))
    (s : Cursive T S C) (h : RootInv s) :
    RootInv (s.stepTail env).1 := by
  unfold Cursive.stepTail
  dsimp only
  apply RootInv_dispatch env hrun
  apply RootInv_preProcess
  have hL : RootInv (s.layout env).1 := RootInv_screen_mut s _ h
  have hD : RootInv ((s.layout env).1.draw env).1 := by
    rw [draw_state]
    split
    · exact hL
    · exact hL
  unfold Cursive.pollEvent
  exact hD

/-- A whole tick preserves the invariant. -/
theorem RootInv_step (env : Env T S C)
    (hrun : ∀ (c : C) (s : Cursive T S C), RootInv s → RootInv (env.runC c s))
    (s : Cursive T S C) (h : RootInv s) :
    RootInv (s.step env).1 := by
  unfold Cursive.step
  dsimp only
  rw [drainQueue_spec]
  exact RootInv_stepTail env hrun _ (RootInv_foldl_runC env hrun _ _ h)

/-- The fueled loop preserves the invariant. -/
theorem RootInv_runLoop (env : Env T S C)
    (hrun : ∀ (c : C) (s : Cursive T S C), RootInv s → RootInv (env.runC c s))
    (fuel : Nat) (s : Cursive T S C) (h : RootInv s) :
    RootInv (Cursive.runLoop env fuel s).1 := by
  induction fuel generalizing s with
  | zero => exact h
  | succ n ih =>
    unfold Cursive.runLoop
    dsimp only
    split
    · exact ih _ (RootInv_step env hrun s h)
    · exact h

/-- States reachable from construction through the public operations,
including cross-thread enqueues and whole loop ticks. -/
inductive Reachable (env : Env T S C) : Cursive T S C → Prop where
  | init (inputs : List Event) (size : Vec2) :
      Reachable env (Cursive.with_backend env inputs size)
  | add_screen (s : Cursive T S C) :
      Reachable env s → Reachable env (s.add_screen env).1
  | add_active_screen (s s2 : Cursive T S C) (res : Nat) :
      Reachable env s → s.add_active_screen env = some (s2, res) →
      Reachable env s2
  | set_screen (s : Cursive T S C) (id : Nat) (s2 : Cursive T S C) :
      Reachable env s → s.set_screen id = some s2 → Reachable env s2
  | screen_mut (s : Cursive T S C) (f : S → S) :
      Reachable env s → Reachable env (s.screen_mut_apply f)
  | add_global_callback (s : Cursive T S C) (e : Event) (c : C) :
      Reachable env s → Reachable env (s.add_global_callback e c)
  | clear_global_callbacks (s : Cursive T S C) (e : Event) :
      Reachable env s → Reachable env (s.clear_global_callbacks e)
  | select_menubar (s : Cursive T S C) :
      Reachable env s → Reachable env s.select_menubar
  | set_autohide_menu (s : Cursive T S C) (b : Bool) :
      Reachable env s → Reachable env (s.set_autohide_menu b)
  | set_theme (s : Cursive T S C) (t : T) :
      Reachable env s → Reachable env (s.set_theme t).1
  | load_theme_file (s : Cursive T S C) (filename : String) :
      Reachable env s → Reachable env (s.load_theme_file env filename).1
  | load_theme (s : Cursive T S C) (content : String) :
      Reachable env s → Reachable env (s.load_theme env content).1
  | set_fps (s : Cursive T S C) (fps : Nat) (s2 : Cursive T S C) :
      Reachable env s → s.set_fps fps = some s2 → Reachable env s2
  | enqueue (s : Cursive T S C) (c : C) :
      Reachable env s → Reachable env { s with cbQueue := s.cbQueue ++ [c] }
  | quit (s : Cursive T S C) :
      Reachable env s → Reachable env s.quit
  | step (s : Cursive T S C) :
      Reachable env s → Reachable env (s.step env).1
  | run (s : Cursive T S C) (fuel : Nat) :
      Reachable env s → Reachable env (Cursive.run env fuel s).1

/-- C5: after construction and any sequence of operations the screen list is
non-empty and the active-screen id is a valid index (provided asynchronous
and global callbacks themselves preserve the invariant, as all public
operations do); moreover `add_screen` appends one screen, returns the
previous count as the new id, keeps the active screen unchanged and keeps
every previously valid id valid. -/
theorem C5_screens_invariant (env : Env T S C)
    (hrun : ∀ (c : C) (s : Cursive T S C), RootInv s → RootInv (env.runC c s)) :
    (∀ s : Cursive T S C, Reachable env s → RootInv s)
    ∧ (∀ s : Cursive T S C,
        (s.add_screen env).2 = s.screens.length
        ∧ (s.add_screen env).1.screens.length = s.screens.length + 1
        ∧ (s.add_screen env).1.activeScreen = s.activeScreen
        ∧ (∀ id : Nat, id < s.screens.length →
            id < (s.add_screen env).1.screens.length)) := by
  constructor
  · intro s hs
    induction hs with
    | init inputs size => exact ⟨by simp [Cursive.with_backend],
        by simp [Cursive.with_backend]⟩
    | add_screen s _ ih =>
      unfold Cursive.add_screen
      exact ⟨by simp [Nat.lt_succ_of_lt ih.1], by simp [Nat.lt_succ_of_lt ih.2]⟩
    | add_active_screen s s2 res _ h ih =>
      unfold Cursive.add_active_screen at h
      dsimp only at h
      rw [Option.map_eq_some'] at h
      obtain ⟨s3, hset, heq⟩ := h
      unfold Cursive.set_screen at hset
      split at hset
      · exact absurd hset (by simp)
      · rename_i hlt
        rw [Option.some_inj] at hset
        obtain ⟨rfl, -⟩ := Prod.mk.injEq .. ▸ heq
        subst hset
        refine ⟨?_, ?_⟩
        · simp [Cursive.add_screen]
        · exact Nat.lt_of_not_le hlt
    | set_screen s id s2 _ h ih =>
      unfold Cursive.set_screen at h
      split at h
      · exact absurd h (by simp)
      · rename_i hlt
        rw [Option.some_inj] at h
        subst h
        exact ⟨ih.1, Nat.lt_of_not_le hlt⟩
    | screen_mut s f _ ih => exact RootInv_screen_mut s f ih
    | add_global_callback s e c _ ih => exact ih
    | clear_global_callbacks s e _ ih => exact ih
    | select_menubar s _ ih => exact ih
    | set_autohide_menu s b _ ih => exact ih
    | set_theme s t _ ih => exact ih
    | load_theme_file s filename _ ih =>
      unfold Cursive.load_theme_file
      split <;> exact ih
    | load_theme s content _ ih =>
      unfold Cursive.load_theme
      split <;> exact ih
    | set_fps s fps s2 _ h ih =>
      unfold Cursive.set_fps setRefreshRate at h
      split at h
      · rw [Option.map_some', Option.some_inj] at h
        subst h
        exact ih
      · exact absurd h (by simp)
    | enqueue s c _ ih => exact ih
    | quit s _ ih => exact ih
    | step s _ ih => exact RootInv_step env hrun s ih
    | run s fuel _ ih => exact RootInv_runLoop env hrun fuel _ ih
  · intro s
    refine ⟨rfl, by simp [Cursive.add_screen], rfl, fun id h => ?_⟩
    simp [Cursive.add_screen]
    omega

/-- Witness for C5: the invariant holds at a freshly constructed root (via
reachability) under the inert callback environment. -/
theorem C5_screens_invariant_witness :
    RootInv (Cursive.with_backend env0 [] ⟨80, 24⟩)
    ∧ ((Cursive.with_backend env0 [] ⟨80, 24⟩).add_screen env0).2 = 1 :=
  ⟨(C5_screens_invariant env0 (fun _ _ h => h)).1 _ (Reachable.init [] ⟨80, 24⟩),
   ((C5_screens_invariant env0 (fun _ _ h => h)).2
      (Cursive.with_backend env0 [] ⟨80, 24⟩)).1⟩

/-- The layout phase only touches the screen list. -/
theorem layout_pres (env : Env T S C) (s : Cursive T S C) :
    ((s.layout env).1).backendInputs = s.backendInputs
    ∧ ((s.layout env).1).menubar = s.menubar
    ∧ ((s.layout env).1).activeScreen = s.activeScreen
    ∧ ((s.layout env).1).globalCallbacks = s.globalCallbacks
    ∧ ((s.layout env).1).running = s.running :=
  ⟨rfl, rfl, rfl, rfl, rfl⟩

/-- The draw phase only touches the layer-size cache. -/
theorem draw_pres (env : Env T S C) (s : Cursive T S C) :
    ((s.draw env).1).backendInputs = s.backendInputs
    ∧ ((s.draw env).1).menubar = s.menubar
    ∧ ((s.draw env).1).screens = s.screens
    ∧ ((s.draw env).1).activeScreen = s.activeScreen
    ∧ ((s.draw env).1).globalCallbacks = s.globalCallbacks
    ∧ ((s.draw env).1).running = s.running := by
  rw [draw_state]
  split <;> exact ⟨rfl, rfl, rfl, rfl, rfl, rfl⟩

/-- The pre-dispatch trace is a clear exactly on a window resize. -/
theorem preProcess_trace (s : Cursive T S C) (e : Event) :
    (s.preProcess e).2
      = (if e = Event.WindowResize then [Effect.clearScreen] else []) :=
  rfl

/-- When the polled event does not trigger the menubar mouse grab, the
pre-dispatch state is the input state, quit-applied on an exit event. -/
theorem preProcess_state (s : Cursive T S C) (e : Event)
    (hgrab : ∀ g p, e = Event.Mouse g p →
      (g && !s.menubar.autohide && !s.menubar.hasSubmenu && (p.y == 0))
        = false) :
    (s.preProcess e).1 = (if e = Event.Exit then s.quit else s) := by
  unfold Cursive.preProcess
  dsimp only
  cases e
  case Mouse g p => simp [hgrab g p rfl]
  all_goals simp

/-- The pre-dispatch phase clears the running flag exactly on an exit
event. -/
theorem preProcess_running (s : Cursive T S C) (e : Event) :
    ((s.preProcess e).1).running
      = (if e = Event.Exit then false else s.running) := by
  unfold Cursive.preProcess Cursive.quit Cursive.select_menubar
  dsimp only
  cases e <;> simp [Menubar.takeFocus]
  split <;> rfl

/-- Folding running-flag-preserving callbacks preserves the running flag. -/
theorem foldl_runC_running (env : Env T S C)
    (hpres : ∀ (c : C) (st : Cursive T S C), (env.runC c st).running = st.running)
    (q : List C) (s : Cursive T S C) :
    (q.foldl (fun st c => env.runC c st) s).running = s.running := by
  induction q generalizing s with
  | nil => rfl
  | cons c rest ih => rw [List.foldl_cons, ih, hpres]

/-- Dispatch never changes the running flag itself (only callbacks could). -/
theorem dispatch_running (env : Env T S C)
    (hpres : ∀ (c : C) (st : Cursive T S C), (env.runC c st).running = st.running)
    (s : Cursive T S C) (e : Event) :
    ((s.dispatch env e).1).running = s.running := by
  unfold Cursive.dispatch Cursive.on_event
  dsimp only
  repeat' split
  all_goals simp [hpres, runCbs_spec, foldl_runC_running env hpres,
    Cursive.screen_mut_apply]

/-- The post-drain tick ends with the running flag cleared exactly when the
polled event is the exit event (when callbacks preserve the flag). -/
theorem stepTail_running (env : Env T S C)
    (hpres : ∀ (c : C) (st : Cursive T S C), (env.runC c st).running = st.running)
    (s : Cursive T S C) :
    ((s.stepTail env).1).running
      = (if s.backendInputs.headD Event.Refresh = Event.Exit then false
         else s.running) := by
  unfold Cursive.stepTail
  dsimp only
  rw [dispatch_running env hpres, preProcess_running]
  unfold Cursive.pollEvent
  dsimp only
  rw [(draw_pres env _).1, (layout_pres env s).1,
    (draw_pres env _).2.2.2.2.2, (layout_pres env s).2.2.2.2]

/-- A tick on an empty queue ends with the running flag cleared exactly when
the polled event is the exit event. -/
theorem step_running (env : Env T S C)
    (hpres : ∀ (c : C) (st : Cursive T S C), (env.runC c st).running = st.running)
    (s : Cursive T S C) (hq : s.cbQueue = []) :
    ((s.step env).1).running
      = (if s.backendInputs.headD Event.Refresh = Event.Exit then false
         else s.running) := by
  rw [step_empty_queue env s hq, stepTail_running env hpres]

/-- When the menubar does not capture input and the active screen ignores
the relativized event, dispatch routes the relativized event to the screen
and then runs exactly the global callbacks registered under the original
event, in registration order. -/
theorem dispatch_ignored (env : Env T S C) (s : Cursive T S C) (e : Event)
    (hmb : s.menubar.focused = false)
    (hscr : (env.screenOnEvent (s.screen env)
        (e.relativized ⟨0, if s.menubar.autohide then 0 else 1⟩)).2
        = EventResult.Ignored) :
    (s.dispatch env e).2
      = Effect.screenEvent
          (e.relativized ⟨0, if s.menubar.autohide then 0 else 1⟩)
        :: ((lookupCbs s.globalCallbacks e).getD []).map Effect.globalCall := by
  unfold Cursive.dispatch Cursive.on_event
  dsimp only
  rw [if_neg (by simp [Menubar.receiveEvents, hmb])]
  rw [hscr]
  dsimp only [Cursive.screen_mut_apply]
  cases hl : lookupCbs s.globalCallbacks e with
  | none => simp [hl]
  | some cbs => simp [hl, runCbs_spec]

/-- Trace of a full post-drain tick whose event falls through to the global
hotkey table: layout, draw, refresh, the resize clear when applicable, the
screen routing of the relativized event, then the registered global
callbacks for the original event, in order. -/
theorem stepTail_ignored_trace (env : Env T S C) (s : Cursive T S C)
    (e : Event) (rest : List Event)
    (hin : s.backendInputs = e :: rest)
    (hmb : s.menubar.focused = false)
    (hgrab : ∀ g p, e = Event.Mouse g p →
      (g && !s.menubar.autohide && !s.menubar.hasSubmenu && (p.y == 0))
        = false)
    (hscr : (env.screenOnEvent ((s.layout env).1.screen env)
        (e.relativized ⟨0, if s.menubar.autohide then 0 else 1⟩)).2
        = EventResult.Ignored) :
    (s.stepTail env).2
      = (s.layout env).2 ++ ((s.layout env).1.draw env).2 ++ [Effect.refresh]
        ++ (if e = Event.WindowResize then [Effect.clearScreen] else [])
        ++ Effect.screenEvent
            (e.relativized ⟨0, if s.menubar.autohide then 0 else 1⟩)
          :: ((lookupCbs s.globalCallbacks e).getD []).map
            Effect.globalCall := by
  unfold Cursive.stepTail
  dsimp only
  have hDin : (((s.layout env).1.draw env).1).backendInputs = e :: rest := by
    rw [(draw_pres env _).1, (layout_pres env s).1, hin]
  have hPolled : ((((s.layout env).1.draw env).1).pollEvent).1 = e := by
    unfold Cursive.pollEvent
    dsimp only
    rw [hDin]
    rfl
  have hPmenu : ((((s.layout env).1.draw env).1).pollEvent).2.menubar
      = s.menubar := by
    unfold Cursive.pollEvent
    dsimp only
    rw [(draw_pres env _).2.1, (layout_pres env s).2.1]
  have hQ : (((((s.layout env).1.draw env).1).pollEvent).2.preProcess
      ((((s.layout env).1.draw env).1).pollEvent).1).1
      = (if e = Event.Exit
         then ((((s.layout env).1.draw env).1).pollEvent).2.quit
         else ((((s.layout env).1.draw env).1).pollEvent).2) := by
    rw [hPolled]
    apply preProcess_state
    intro g p hgp
    rw [hPmenu]
    exact hgrab g p hgp
  have hQmenu : (((((s.layout env).1.draw env).1).pollEvent).2.preProcess
      ((((s.layout env).1.draw env).1).pollEvent).1).1.menubar
      = s.menubar := by
    rw [hQ]
    split <;> simp [Cursive.quit, hPmenu]
  have hQglob : (((((s.layout env).1.draw env).1).pollEvent).2.preProcess
      ((((s.layout env).1.draw env).1).pollEvent).1).1.globalCallbacks
      = s.globalCallbacks := by
    rw [hQ]
    have hPg : ((((s.layout env).1.draw env).1).pollEvent).2.globalCallbacks
        = s.globalCallbacks := by
      unfold Cursive.pollEvent
      dsimp only
      rw [(draw_pres env _).2.2.2.2.1, (layout_pres env s).2.2.2.1]
    split <;> simp [Cursive.quit, hPg]
  have hQscreen : Cursive.screen env
      (((((s.layout env).1.draw env).1).pollEvent).2.preProcess
        ((((s.layout env).1.draw env).1).pollEvent).1).1
      = Cursive.screen env (s.layout env).1 := by
    have hPs : ((((s.layout env).1.draw env).1).pollEvent).2.screens
        = (s.layout env).1.screens := by
      unfold Cursive.pollEvent
      dsimp only
      rw [(draw_pres env _).2.2.1]
    have hPa : ((((s.layout env).1.draw env).1).pollEvent).2.activeScreen
        = (s.layout env).1.activeScreen := by
      unfold Cursive.pollEvent
      dsimp only
      rw [(draw_pres env _).2.2.2.1]
    unfold Cursive.screen
    rw [hQ]
    split <;> simp [Cursive.quit, hPs, hPa]
  rw [dispatch_ignored env _ _ (by rw [hQmenu]; exact hmb)
      (by rw [hQscreen, hQmenu, hPolled]; exact hscr)]
  rw [hQmenu, hQglob, hPolled, preProcess_trace]

/-- Global-call trace entries decode back to exactly the callback list. -/
theorem filterMap_effGlobal_map (cbs : List C) :
    (cbs.map Effect.globalCall).filterMap effGlobal = cbs := by
  induction cbs with
  | nil => rfl
  | cons c rest ih => simp [effGlobal, ih]

/-- The layout phase invokes no callback of any kind. -/
theorem layout_no_calls (env : Env T S C) (s : Cursive T S C) :
    ((s.layout env).2).filterMap effGlobal = ([] : List C)
    ∧ ((s.layout env).2).countP isCallEffect = 0 := by
  constructor <;>
    simp [Cursive.layout, effGlobal, isCallEffect, List.countP_cons]

/-- The draw phase invokes no callback of any kind. -/
theorem draw_no_calls (env : Env T S C) (s : Cursive T S C) :
    ((s.draw env).2).filterMap effGlobal = ([] : List C)
    ∧ ((s.draw env).2).countP isCallEffect = 0 := by
  constructor <;>
  · unfold Cursive.draw
    dsimp only
    repeat' split
    all_goals
      simp [effGlobal, isCallEffect, List.countP_append, List.countP_cons]

/-- On an ignored event, the tick's global-invocation trace is exactly the
registered list for the original event; with nothing registered the tick
invokes no callback at all. -/
theorem step_ignored_filterMap (env : Env T S C) (s : Cursive T S C)
    (e : Event) (rest : List Event)
    (hq : s.cbQueue = [])
    (hin : s.backendInputs = e :: rest)
    (hmb : s.menubar.focused = false)
    (hgrab : ∀ g p, e = Event.Mouse g p →
      (g && !s.menubar.autohide && !s.menubar.hasSubmenu && (p.y == 0))
        = false)
    (hscr : (env.screenOnEvent ((s.layout env).1.screen env)
        (e.relativized ⟨0, if s.menubar.autohide then 0 else 1⟩)).2
        = EventResult.Ignored) :
    ((s.step env).2).filterMap effGlobal
      = (lookupCbs s.globalCallbacks e).getD []
    ∧ (lookupCbs s.globalCallbacks e = none →
      ((s.step env).2).countP isCallEffect = 0) := by
  rw [step_empty_queue env s hq,
    stepTail_ignored_trace env s e rest hin hmb hgrab hscr]
  have hresize : ∀ p : Effect C → Bool, p Effect.clearScreen = false →
      ((if e = Event.WindowResize then [Effect.clearScreen]
        else ([] : List (Effect C)))).countP p = 0 := by
    intro p hp
    split <;> simp [List.countP_cons, hp]
  have hresizeF : ((if e = Event.WindowResize then [Effect.clearScreen]
      else ([] : List (Effect C)))).filterMap effGlobal = [] := by
    split <;> rfl
  constructor
  · simp only [List.filterMap_append, (layout_no_calls env s).1,
      (draw_no_calls env _).1, hresizeF, List.filterMap_cons,
      filterMap_effGlobal_map]
    simp [effGlobal]
  · intro hnone
    simp only [List.countP_append, (layout_no_calls env s).2,
      (draw_no_calls env _).2, hresize isCallEffect rfl, hnone,
      List.countP_cons]
    simp [isCallEffect]

/-- C1: in a tick where the menubar does not capture input and the active
screen's handler returns Ignored for the relativized event, every callback
registered in the global hotkey table under the original, non-relativized
event is invoked, in registration order, exactly once (the tick's trace of
global invocations equals the registered list); when no callbacks are
registered under that event the tick performs no callback invocation. -/
theorem C1_global_hotkeys_fire_in_order (env : Env T S C) (s : Cursive T S C)
    (e : Event) (rest : List Event)
    (hq : s.cbQueue = [])
    (hin : s.backendInputs = e :: rest)
    (hmb : s.menubar.focused = false)
    (hgrab : ∀ g p, e = Event.Mouse g p →
      (g && !s.menubar.autohide && !s.menubar.hasSubmenu && (p.y == 0))
        = false)
    (hscr : (env.screenOnEvent ((s.layout env).1.screen env)
        (e.relativized ⟨0, if s.menubar.autohide then 0 else 1⟩)).2
        = EventResult.Ignored) :
    ((s.step env).2).filterMap effGlobal
      = (lookupCbs s.globalCallbacks e).getD []
    ∧ (lookupCbs s.globalCallbacks e = none →
      ((s.step env).2).countP isCallEffect = 0) :=
  step_ignored_filterMap env s e rest hq hin hmb hgrab hscr

/-- Witness for C1: a root with one pending char event and one registered
callback for it runs exactly that callback on the tick. -/
theorem C1_global_hotkeys_fire_in_order_witness :
    (((Cursive.add_global_callback
        (Cursive.with_backend env0 [Event.CharKey 'q'] ⟨80, 24⟩)
        (Event.CharKey 'q') ()).step env0).2).filterMap
      effGlobal = [()] :=
  Eq.trans
    ((C1_global_hotkeys_fire_in_order env0
      (Cursive.add_global_callback
        (Cursive.with_backend env0 [Event.CharKey 'q'] ⟨80, 24⟩)
        (Event.CharKey 'q') ())
      (Event.CharKey 'q') [] rfl rfl rfl
      (fun g p hh => Event.noConfusion hh) rfl).1)
    (by decide)

/-- C10: when the polled event is the exit event, `quit` only clears the
running flag (nothing else changes), the tick is not aborted: the exit
event is still dispatched through the active screen and, when ignored,
every global callback bound to the exit event fires once; the loop then
observes the cleared flag (provided callbacks leave the flag alone). -/
theorem C10_exit_finishes_tick (env : Env T S C) (s : Cursive T S C)
    (rest : List Event)
    (hq : s.cbQueue = [])
    (hin : s.backendInputs = Event.Exit :: rest)
    (hmb : s.menubar.focused = false)
    (hscr : (env.screenOnEvent ((s.layout env).1.screen env)
        (Event.Exit.relativized
          ⟨0, if s.menubar.autohide then 0 else 1⟩)).2
        = EventResult.Ignored) :
    s.quit = { s with running := false }
    ∧ ((s.step env).2).filterMap effGlobal
      = (lookupCbs s.globalCallbacks Event.Exit).getD []
    ∧ ((∀ (c : C) (st : Cursive T S C),
        (env.runC c st).running = st.running) →
      ((s.step env).1).running = false) := by
  refine ⟨rfl, ?_, fun hpres => ?_⟩
  · exact (step_ignored_filterMap env s Event.Exit rest hq hin hmb
      (fun g p hh => Event.noConfusion hh) hscr).1
  · rw [step_running env hpres s hq, hin]
    rfl

/-- Witness for C10: a root with a pending exit event and a registered exit
callback runs the callback on the terminating tick and ends not running. -/
theorem C10_exit_finishes_tick_witness :
    (((Cursive.add_global_callback
        (Cursive.with_backend env0 [Event.Exit] ⟨80, 24⟩) Event.Exit ()).step env0).2).filterMap effGlobal
      = (lookupCbs (Cursive.add_global_callback
          (Cursive.with_backend env0 [Event.Exit] ⟨80, 24⟩) Event.Exit
          ()).globalCallbacks Event.Exit).getD []
    ∧ (((Cursive.add_global_callback
        (Cursive.with_backend env0 [Event.Exit] ⟨80, 24⟩) Event.Exit ()).step env0).1).running = false :=
  ⟨(C10_exit_finishes_tick env0
      (Cursive.add_global_callback
        (Cursive.with_backend env0 [Event.Exit] ⟨80, 24⟩) Event.Exit ()) [] rfl rfl rfl rfl).2.1,
   (C10_exit_finishes_tick env0
      (Cursive.add_global_callback
        (Cursive.with_backend env0 [Event.Exit] ⟨80, 24⟩) Event.Exit ()) [] rfl rfl rfl rfl).2.2
      (fun _ _ => rfl)⟩

/-- Once the running flag is cleared the loop performs no further step. -/
theorem runLoop_not_running (env : Env T S C) (n : Nat) (s : Cursive T S C)
    (h : s.running = false) : Cursive.runLoop env n s = (s, []) := by
  cases n with
  | zero => rfl
  | succ m =>
    unfold Cursive.runLoop
    simp [h]

/-- One unfolding of the fueled loop. -/
theorem runLoop_succ (env : Env T S C) (n : Nat) (s : Cursive T S C) :
    Cursive.runLoop env (Nat.succ n) s
      = if s.running then
          ((Cursive.runLoop env n (s.step env).1).1,
           (s.step env).2 ++ (Cursive.runLoop env n (s.step env).1).2)
        else (s, []) :=
  rfl

/-- The fueled loop splits over fuel addition. -/
theorem runLoop_add (env : Env T S C) (m n : Nat) (s : Cursive T S C) :
    Cursive.runLoop env (m + n) s
      = ((Cursive.runLoop env n (Cursive.runLoop env m s).1).1,
         (Cursive.runLoop env m s).2
           ++ (Cursive.runLoop env n (Cursive.runLoop env m s).1).2) := by
  induction m generalizing s with
  | zero => simp [Cursive.runLoop]
  | succ p ih =>
    have hsucc : Nat.succ p + n = Nat.succ (p + n) := by omega
    rw [hsucc, runLoop_succ env (p + n) s, runLoop_succ env p s]
    by_cases h : s.running
    · simp only [h, if_true]
      rw [ih]
      simp [List.append_assoc]
    · rw [Bool.not_eq_true] at h
      simp only [h, Bool.false_eq_true, if_false]
      simp [runLoop_not_running env n s h]

/-- The concrete end-to-end scenario state: a fresh 80x24 root whose backend
will report the idle marker three times and then the exit event, with a
global callback registered on the exit event. -/
def s8 : Cursive Unit Unit Unit :=
  Cursive.add_global_callback
    (Cursive.with_backend env0
      [Event.Refresh, Event.Refresh, Event.Refresh, Event.Exit] ⟨80, 24⟩)
    Event.Exit ()

/-- C8: with a global callback registered on the exit event and a backend
returning the idle marker three times and then the exit event, `run`
performs exactly 4 layout/draw cycles and then returns with `is_running`
false, for any sufficient fuel; in general every `step` performs exactly
one layout and one draw. -/
theorem C8_run_four_cycles_then_stops (k : Nat) :
    (Cursive.run env0 (4 + k) s8).1.is_running = false
    ∧ ((Cursive.run env0 (4 + k) s8).2).countP isLayoutEffect = 4
    ∧ ((Cursive.run env0 (4 + k) s8).2).countP isDrawFgEffect = 4
    ∧ (∀ (A B D : Type) (env : Env A B D) (st : Cursive A B D),
        ((st.step env).2).countP isLayoutEffect = 1
        ∧ ((st.step env).2).countP isDrawFgEffect = 1) := by
  have hnr : (Cursive.runLoop env0 4 { s8 with running := true }).1.running
      = false := by decide
  have hL : ((Cursive.runLoop env0 4 { s8 with running := true }).2).countP
      isLayoutEffect = 4 := by decide
  have hD : ((Cursive.runLoop env0 4 { s8 with running := true }).2).countP
      isDrawFgEffect = 4 := by decide
  unfold Cursive.run
  rw [runLoop_add env0 4 k]
  rw [runLoop_not_running env0 k _ hnr]
  refine ⟨?_, ?_, ?_, fun A B D env st => step_counts env st⟩
  · simp only [Cursive.is_running]
    exact hnr
  · simp [List.countP_append, hL]
  · simp [List.countP_append, hD]
